import Mathlib

/-!
Verification of the navigation state machine of `metabase-explorer`
(package `tui`, chiefly `Model.Update` and `Model.updateViewport`, plus
`Model.updateSearch` from `view.go`).

The Go source is shallowly embedded: the `Model` struct becomes a Lean
structure, `Model.Update` becomes a pure function `Model × Msg → Model × Cmd`
(Bubble Tea commands are reified as the inductive `Cmd`), Go `int` fields that
can move both ways become `Int`, Go slices become `List`, Go nilable pointers
become `Option`.  Side effects performed synchronously by the source
(launching a browser via `util.OpenInBrowser`) are reified as a `Cmd.openBrowser`
value; the source's assignment of a launch-failure message to `m.error` is not
modelled (no claim mentions it).
-/

namespace MBX

/-- `api.Collection.ID` is `interface{}` in Go: an int or the string `"root"`. -/
inductive CollectionId where
  | intId (n : Int)
  | strId (s : String)
  deriving DecidableEq, Repr, Inhabited

/-- `api.Database` (fields used by the navigation core). -/
structure Database where
  id : Int
  name : String
  engine : String := ""
  deriving DecidableEq, Repr, Inhabited

/-- `api.Schema`. -/
structure Schema where
  name : String
  tableCount : Int := 0
  deriving DecidableEq, Repr, Inhabited

/-- `api.Table` (fields used by the navigation core). -/
structure Table where
  id : Int
  name : String
  displayName : String := ""
  schema : String := ""
  deriving DecidableEq, Repr, Inhabited

/-- `api.Field` (fields used by the navigation core). -/
structure Field where
  id : Int
  name : String
  displayName : String := ""
  deriving DecidableEq, Repr, Inhabited

/-- `api.Collection` (fields used by the navigation core). -/
structure Collection where
  id : CollectionId
  name : String
  deriving DecidableEq, Repr, Inhabited

/-- `api.CollectionItem` (fields used by the navigation core). -/
structure CollectionItem where
  id : Int
  name : String
  model : String
  deriving DecidableEq, Repr, Inhabited

/-- `api.SearchResult`: the declaration file of this revision is absent from
the sources; the navigation core only stores these records in a list and
reads their count, so an id/name/model record suffices. -/
structure SearchResult where
  id : Int
  name : String
  model : String := ""
  deriving DecidableEq, Repr, Inhabited

/-- The `viewState` enumeration of `tui`. -/
inductive viewState where
  | viewMainMenu
  | viewDatabases
  | viewSchemas
  | viewTables
  | viewFields
  | viewCollections
  | viewCollectionItems
  | viewGlobalSearch
  deriving DecidableEq, Repr, Inhabited

open viewState

/-- Reified Bubble Tea commands returned by `Model.Update`.  Each `load*`
constructor records the arguments the source passes to the corresponding
command builder in `cmds.go`. -/
inductive Cmd where
  | none
  | quit
  | batch (cmds : List Cmd)
  | loadDatabases
  | loadCollections
  | loadSchemas (databaseID : Int)
  | loadTablesForSchema (databaseID : Int) (schemaName : String)
  | loadFields (tableID : Int)
  | loadCollectionItems (collectionID : CollectionId)
  | loadGlobalSearch (query : String)
  | tickSpinner
  | openBrowser (url : String)
  deriving Repr, Inhabited

/-- The `tui.Model` struct.  Go `int` fields are `Int`, slices are `List`,
nilable pointers are `Option`.  The collection stack is a list of *pointers*
in Go (`[]*api.Collection`), hence `List (Option Collection)`.  The
`searchMode`/`searchQuery`/`filteredIndices` fields belong to the same struct
in the revision carrying `updateSearch` (`view.go`); `updateSearch` is the
only embedded function reading them.  Version-check display fields
(`latestVersion`, `updateAvailable`, `Version`) and the spinner are carried
for completeness.  The HTTP client is represented by its base URL. -/
structure Model where
  databases : List Database := []
  schemas : List Schema := []
  tables : List Table := []
  fields : List Field := []
  collections : List Collection := []
  collectionItems : List CollectionItem := []
  searchResults : List SearchResult := []
  globalSearchQuery : String := ""
  cursor : Int := 0
  loading : Bool := false
  error : String := ""
  clientBaseURL : String := ""
  currentView : viewState := viewMainMenu
  selectedDatabase : Option Database := Option.none
  selectedSchema : Option Schema := Option.none
  selectedTable : Option Table := Option.none
  selectedCollection : Option Collection := Option.none
  collectionStack : List (Option Collection) := []
  viewportStart : Int := 0
  viewportHeight : Int := 0
  spinnerIndex : Int := 0
  numberInput : String := ""
  helpMode : Bool := false
  helpCursor : Int := 0
  searchMode : Bool := false
  searchQuery : String := ""
  filteredIndices : List Nat := []
  latestVersion : String := ""
  updateAvailable : Bool := false
  Version : String := ""
  deriving DecidableEq, Repr, Inhabited

/-- Input messages consumed by `Model.Update`.  Key events are identified by
the string Bubble Tea's `msg.String()` yields (`"up"`, `"k"`, `"1"`, …).
The Go completion structs carry a payload and an `error`; a non-nil error is
`some` of its message string. -/
inductive Msg where
  | key (s : String)
  | connectionTested (err : Option String)
  | databasesLoaded (dbs : List Database) (err : Option String)
  | collectionsLoaded (cs : List Collection) (err : Option String)
  | collectionItemsLoaded (items : List CollectionItem) (err : Option String)
  | globalSearchLoaded (results : List SearchResult) (err : Option String)
  | schemasLoaded (ss : List Schema) (err : Option String)
  | tablesLoaded (ts : List Table) (err : Option String)
  | fieldsLoaded (fs : List Field) (err : Option String)
  | versionChecked (latestVersion : String) (err : Option String)
  | spinnerTick
  deriving DecidableEq, Repr, Inhabited

/-- Go's `len` on a string counts bytes. -/
def goLen (s : String) : Nat := s.utf8ByteSize

/-- `strconv.Atoi` restricted to the strings the navigation core feeds it:
`numberInput` only ever holds decimal digits (it is built exclusively by
appending digit keys), on which `Atoi` succeeds except on the empty string.
Signs and 64-bit overflow never arise there and are not modelled. -/
def goAtoi (s : String) : Option Int :=
  if s ≠ "" ∧ s.toList.all Char.isDigit then
    some (s.toList.foldl (fun a c => a * 10 + (c.toNat - 48 : Int)) 0)
  else
    Option.none

/-- `updateViewport` from `part_006`: recomputes the viewport height from the
assumed terminal capacity and moves `viewportStart` so the cursor is visible,
then clamps it to `[0, max 0 (itemCount - height)]`. -/
def Model.updateViewport (m : Model) (itemCount : Int) : Model :=
  let terminalHeight : Int := 25
  let h0 : Int := terminalHeight - 8
  let h : Int := if h0 < 5 then 5 else h0
  let s1 : Int :=
    if m.cursor < m.viewportStart then m.cursor
    else if m.viewportStart + h ≤ m.cursor then m.cursor - h + 1
    else m.viewportStart
  let s2 : Int := if s1 < 0 then 0 else s1
  let maxStart : Int := if itemCount - h < 0 then 0 else itemCount - h
  let s3 : Int := if maxStart < s2 then maxStart else s2
  { m with viewportHeight := h, viewportStart := s3 }

/-- `%v`/`%d` formatting of a collection id. -/
def CollectionId.format : CollectionId → String
  | CollectionId.intId n => toString n
  | CollectionId.strId s => s

/-- Dereference `m.selectedDatabase.ID`.  Go panics on a nil pointer; the
program only dereferences after assigning a database, so the `none` case is
unreachable and modelled by a default id. -/
def derefDatabaseId (od : Option Database) : Int := (od.map (·.id)).getD 0

/-- Dereference `m.selectedTable.ID` (same nil caveat as `derefDatabaseId`). -/
def derefTableId (ot : Option Table) : Int := (ot.map (·.id)).getD 0

/-- Dereference `m.selectedCollection.ID` (same nil caveat as
`derefDatabaseId`). -/
def derefCollectionId (oc : Option Collection) : CollectionId :=
  (oc.map (·.id)).getD (CollectionId.intId 0)

/-- `strings.TrimSuffix`. -/
def goTrimSuffix (s suf : String) : String :=
  if suf ≠ "" ∧ s.endsWith suf then s.dropRight suf.length else s

/-- `strings.TrimPrefix(s, "v")` as used by the version check. -/
def goTrimV (s : String) : String := if s.startsWith "v" then s.drop 1 else s

/-- `getWebURL` from `part_002`/`view.go` (same body in both revisions for
the views present here).  Go indexes `m.xs[m.cursor]` after checking only
`m.cursor < len(m.xs)`; a negative cursor would panic and is modelled by a
default element. -/
def Model.getWebURL (m : Model) : String :=
  let baseURL := goTrimSuffix m.clientBaseURL "/"
  match m.currentView with
  | viewMainMenu => baseURL
  | viewDatabases =>
    if 0 < m.databases.length ∧ m.cursor < (m.databases.length : Int) then
      baseURL ++ "/browse/databases/" ++ toString (m.databases.getD m.cursor.toNat default).id
    else baseURL
  | viewCollections =>
    if 0 < m.collections.length ∧ m.cursor < (m.collections.length : Int) then
      baseURL ++ "/collection/" ++ (m.collections.getD m.cursor.toNat default).id.format
    else baseURL
  | viewCollectionItems =>
    if 0 < m.collectionItems.length ∧ m.cursor < (m.collectionItems.length : Int) then
      let item := m.collectionItems.getD m.cursor.toNat default
      if item.model = "card" then baseURL ++ "/question/" ++ toString item.id
      else if item.model = "dashboard" then baseURL ++ "/dashboard/" ++ toString item.id
      else if item.model = "collection" then baseURL ++ "/collection/" ++ toString item.id
      else baseURL ++ "/collection/" ++ (derefCollectionId m.selectedCollection).format
    else if m.selectedCollection ≠ Option.none then
      baseURL ++ "/collection/" ++ (derefCollectionId m.selectedCollection).format
    else baseURL
  | viewSchemas =>
    if 0 < m.schemas.length ∧ m.cursor < (m.schemas.length : Int) ∧ m.selectedDatabase ≠ Option.none then
      baseURL ++ "/browse/databases/" ++ toString (derefDatabaseId m.selectedDatabase)
        ++ "/schema/" ++ (m.schemas.getD m.cursor.toNat default).name
    else if m.selectedDatabase ≠ Option.none then
      baseURL ++ "/browse/databases/" ++ toString (derefDatabaseId m.selectedDatabase)
    else baseURL
  | viewTables =>
    if 0 < m.tables.length ∧ m.cursor < (m.tables.length : Int) ∧ m.selectedDatabase ≠ Option.none then
      baseURL ++ "/reference/databases/" ++ toString (derefDatabaseId m.selectedDatabase)
        ++ "/tables/" ++ toString (m.tables.getD m.cursor.toNat default).id
    else if m.selectedDatabase ≠ Option.none then
      baseURL ++ "/admin/databases/" ++ toString (derefDatabaseId m.selectedDatabase)
    else baseURL
  | viewFields =>
    if 0 < m.fields.length ∧ m.cursor < (m.fields.length : Int)
        ∧ m.selectedTable ≠ Option.none ∧ m.selectedDatabase ≠ Option.none then
      baseURL ++ "/reference/databases/" ++ toString (derefDatabaseId m.selectedDatabase)
        ++ "/tables/" ++ toString (derefTableId m.selectedTable)
        ++ "/fields/" ++ toString (m.fields.getD m.cursor.toNat default).id
    else if m.selectedTable ≠ Option.none ∧ m.selectedDatabase ≠ Option.none then
      baseURL ++ "/reference/databases/" ++ toString (derefDatabaseId m.selectedDatabase)
        ++ "/tables/" ++ toString (derefTableId m.selectedTable)
    else baseURL
  | viewGlobalSearch => baseURL

/-- Item count computed in the digit-key case of `Update`.  The Go switch has
no `viewGlobalSearch` case, so there the count keeps its zero value. -/
def Model.itemCount (m : Model) : Int :=
  match m.currentView with
  | viewMainMenu => 2
  | viewDatabases => m.databases.length
  | viewCollections => m.collections.length
  | viewCollectionItems => m.collectionItems.length
  | viewSchemas => m.schemas.length
  | viewTables => m.tables.length
  | viewFields => m.fields.length
  | viewGlobalSearch => 0

/-- Digit-key case of `Update`: append to `numberInput`, hover over the
1-based index if it is in range, otherwise possibly discard the buffer. -/
def Model.handleDigit (m : Model) (s : String) : Model × Cmd :=
  if m.helpMode then (m, Cmd.none)
  else
    let m1 := { m with numberInput := m.numberInput ++ s }
    let itemCount := m1.itemCount
    match goAtoi m1.numberInput with
    | some num =>
      if 1 ≤ num ∧ num ≤ itemCount then
        ({ m1 with cursor := num - 1 }, Cmd.none)
      else if 3 ≤ goLen m1.numberInput ∨ (goLen m1.numberInput = 2 ∧ m1.numberInput.front ≠ '0') then
        if itemCount < num then ({ m1 with numberInput := "" }, Cmd.none)
        else (m1, Cmd.none)
      else (m1, Cmd.none)
    | Option.none =>
      if 3 ≤ goLen m1.numberInput ∨ (goLen m1.numberInput = 2 ∧ m1.numberInput.front ≠ '0') then
        ({ m1 with numberInput := "" }, Cmd.none)
      else (m1, Cmd.none)

/-- `"up"`/`"k"` case of `Update`. -/
def Model.handleUpK (m : Model) : Model × Cmd :=
  if m.helpMode then
    if 0 < m.helpCursor then ({ m with helpCursor := m.helpCursor - 1 }, Cmd.none)
    else (m, Cmd.none)
  else
    let m1 := { m with numberInput := "" }
    if 0 < m1.cursor then
      let m2 := { m1 with cursor := m1.cursor - 1 }
      if m2.currentView = viewCollectionItems ∧ 0 < m2.collectionItems.length then
        (m2.updateViewport m2.collectionItems.length, Cmd.none)
      else (m2, Cmd.none)
    else (m1, Cmd.none)

/-- `"down"`/`"j"` case of `Update`. -/
def Model.handleDownJ (m : Model) : Model × Cmd :=
  if m.helpMode then
    if m.helpCursor < 2 then ({ m with helpCursor := m.helpCursor + 1 }, Cmd.none)
    else (m, Cmd.none)
  else
    let m1 := { m with numberInput := "" }
    if m1.currentView = viewMainMenu ∧ m1.cursor < 1 then
      ({ m1 with cursor := m1.cursor + 1 }, Cmd.none)
    else if m1.currentView = viewDatabases ∧ m1.cursor < (m1.databases.length : Int) - 1 then
      ({ m1 with cursor := m1.cursor + 1 }, Cmd.none)
    else if m1.currentView = viewCollections ∧ m1.cursor < (m1.collections.length : Int) - 1 then
      ({ m1 with cursor := m1.cursor + 1 }, Cmd.none)
    else if m1.currentView = viewCollectionItems ∧ m1.cursor < (m1.collectionItems.length : Int) - 1 then
      let m2 := { m1 with cursor := m1.cursor + 1 }
      (m2.updateViewport m2.collectionItems.length, Cmd.none)
    else if m1.currentView = viewSchemas ∧ m1.cursor < (m1.schemas.length : Int) - 1 then
      ({ m1 with cursor := m1.cursor + 1 }, Cmd.none)
    else if m1.currentView = viewTables ∧ m1.cursor < (m1.tables.length : Int) - 1 then
      ({ m1 with cursor := m1.cursor + 1 }, Cmd.none)
    else if m1.currentView = viewFields ∧ m1.cursor < (m1.fields.length : Int) - 1 then
      ({ m1 with cursor := m1.cursor + 1 }, Cmd.none)
    else if m1.currentView = viewGlobalSearch ∧ m1.cursor < (m1.searchResults.length : Int) - 1 then
      ({ m1 with cursor := m1.cursor + 1 }, Cmd.none)
    else (m1, Cmd.none)

/-- The collection-items backward block, textually identical in the
`"left","h"`, `"backspace"` and `"esc"` cases of `Update`: pop the collection
stack if non-empty (re-fetching the parent's items), otherwise fall back to
the root collections view. -/
def Model.backNavCollectionItems (m : Model) : Model × Cmd :=
  if m.collectionStack ≠ [] then
    let top := m.collectionStack.getLast?.getD Option.none
    ({ m with selectedCollection := top,
              collectionStack := m.collectionStack.dropLast,
              cursor := 0, loading := true, error := "" },
     Cmd.batch [Cmd.loadCollectionItems (derefCollectionId top), Cmd.tickSpinner])
  else
    ({ m with currentView := viewCollections, cursor := 0,
              selectedCollection := Option.none, collectionItems := [] }, Cmd.none)

/-- `"left"`/`"h"` case of `Update`. -/
def Model.handleLeftH (m : Model) : Model × Cmd :=
  if m.helpMode then ({ m with helpMode := false }, Cmd.none)
  else if m.numberInput ≠ "" then ({ m with numberInput := "" }, Cmd.none)
  else if m.currentView = viewDatabases ∨ m.currentView = viewCollections then
    ({ m with currentView := viewMainMenu, cursor := 0, selectedDatabase := Option.none,
              databases := [], collections := [] }, Cmd.none)
  else if m.currentView = viewCollectionItems then m.backNavCollectionItems
  else if m.currentView = viewSchemas then
    ({ m with currentView := viewDatabases, cursor := 0, selectedDatabase := Option.none,
              schemas := [] }, Cmd.none)
  else if m.currentView = viewTables then
    ({ m with currentView := viewSchemas, cursor := 0, selectedSchema := Option.none,
              tables := [] }, Cmd.none)
  else if m.currentView = viewFields then
    ({ m with currentView := viewTables, cursor := 0, selectedTable := Option.none,
              fields := [] }, Cmd.none)
  else if m.currentView = viewGlobalSearch then
    ({ m with currentView := viewMainMenu, cursor := 0, searchResults := [],
              globalSearchQuery := "" }, Cmd.none)
  else (m, Cmd.none)

/-- Link opened by the help overlay on `enter`/`right`/`l`.  The Go switch
leaves the URL empty for a help cursor outside `{0,1,2}`. -/
def helpURL (helpCursor : Int) : String :=
  if helpCursor = 0 then "https://github.com/amureki/metabase-explorer"
  else if helpCursor = 1 then "https://github.com/amureki/metabase-explorer/issues"
  else if helpCursor = 2 then "https://github.com/sponsors/amureki"
  else ""

/-- The forward transition, textually identical in the `"right","l"` and
`"enter"` cases of `Update`.  Go indexes `m.xs[m.cursor]` guarded only by
`len(m.xs) > 0` (a cursor outside the list would panic; the navigation
invariant keeps it in range, and the panic is modelled by a default
element). -/
def Model.handleForward (m : Model) : Model × Cmd :=
  if m.helpMode then (m, Cmd.openBrowser (helpURL m.helpCursor))
  else
    let m1 := { m with numberInput := "" }
    if m1.currentView = viewMainMenu then
      if m1.cursor = 0 then
        ({ m1 with currentView := viewCollections, cursor := 0, loading := true, error := "" },
         Cmd.batch [Cmd.loadCollections, Cmd.tickSpinner])
      else if m1.cursor = 1 then
        ({ m1 with currentView := viewDatabases, cursor := 0, loading := true, error := "" },
         Cmd.batch [Cmd.loadDatabases, Cmd.tickSpinner])
      else (m1, Cmd.none)
    else if m1.currentView = viewDatabases ∧ 0 < m1.databases.length then
      let db := m1.databases.getD m1.cursor.toNat default
      ({ m1 with selectedDatabase := some db, currentView := viewSchemas, cursor := 0,
                 loading := true, error := "" },
       Cmd.batch [Cmd.loadSchemas db.id, Cmd.tickSpinner])
    else if m1.currentView = viewCollections ∧ 0 < m1.collections.length then
      let c := m1.collections.getD m1.cursor.toNat default
      ({ m1 with selectedCollection := some c, collectionStack := [],
                 currentView := viewCollectionItems, cursor := 0, loading := true, error := "" },
       Cmd.batch [Cmd.loadCollectionItems c.id, Cmd.tickSpinner])
    else if m1.currentView = viewCollectionItems ∧ 0 < m1.collectionItems.length then
      let item := m1.collectionItems.getD m1.cursor.toNat default
      if item.model = "collection" then
        ({ m1 with collectionStack := m1.collectionStack ++ [m1.selectedCollection],
                   selectedCollection := some { id := CollectionId.intId item.id, name := item.name },
                   currentView := viewCollectionItems, cursor := 0, loading := true, error := "" },
         Cmd.batch [Cmd.loadCollectionItems (CollectionId.intId item.id), Cmd.tickSpinner])
      else (m1, Cmd.none)
    else if m1.currentView = viewSchemas ∧ 0 < m1.schemas.length then
      let sch := m1.schemas.getD m1.cursor.toNat default
      ({ m1 with selectedSchema := some sch, currentView := viewTables, cursor := 0,
                 loading := true, error := "" },
       Cmd.batch [Cmd.loadTablesForSchema (derefDatabaseId m1.selectedDatabase) sch.name,
                  Cmd.tickSpinner])
    else if m1.currentView = viewTables ∧ 0 < m1.tables.length then
      let t := m1.tables.getD m1.cursor.toNat default
      ({ m1 with selectedTable := some t, currentView := viewFields, cursor := 0,
                 loading := true, error := "" },
       Cmd.batch [Cmd.loadFields t.id, Cmd.tickSpinner])
    else (m1, Cmd.none)

/-- `"w"` case of `Update`: open the current view's web page.  The source
launches the browser synchronously and writes a failure message into
`m.error`; the launch is reified as a command and the failure write (claims
never mention it) is not modelled. -/
def Model.handleW (m : Model) : Model × Cmd :=
  (m, Cmd.openBrowser m.getWebURL)

/-- Backward-navigation chain shared by the tail of the `"backspace"` case
(everything after the global-search editing block).  Unlike `"left"`/`"h"`
there is no `viewGlobalSearch` branch. -/
def Model.backspaceNav (m : Model) : Model × Cmd :=
  if m.numberInput ≠ "" then ({ m with numberInput := "" }, Cmd.none)
  else if m.currentView = viewDatabases ∨ m.currentView = viewCollections then
    ({ m with currentView := viewMainMenu, cursor := 0, selectedDatabase := Option.none,
              databases := [], collections := [] }, Cmd.none)
  else if m.currentView = viewCollectionItems then m.backNavCollectionItems
  else if m.currentView = viewSchemas then
    ({ m with currentView := viewDatabases, cursor := 0, selectedDatabase := Option.none,
              schemas := [] }, Cmd.none)
  else if m.currentView = viewTables then
    ({ m with currentView := viewSchemas, cursor := 0, selectedSchema := Option.none,
              tables := [] }, Cmd.none)
  else if m.currentView = viewFields then
    ({ m with currentView := viewTables, cursor := 0, selectedTable := Option.none,
              fields := [] }, Cmd.none)
  else (m, Cmd.none)

/-- `"backspace"` case of `Update`: first the global-search query editing
block (which may return a fetch command and otherwise falls through), then
the backward-navigation chain.  `Update` does *not* guard this case by help
mode.  The query holds only single-byte characters (appended under a
one-byte-length guard), so Go's byte slice `q[:len(q)-1]` is `dropRight 1`. -/
def Model.handleBackspace (m : Model) : Model × Cmd :=
  if m.currentView = viewGlobalSearch ∧ 0 < goLen m.globalSearchQuery then
    let m1 := { m with globalSearchQuery := m.globalSearchQuery.dropRight 1, cursor := 0 }
    if 2 ≤ goLen m1.globalSearchQuery then
      ({ m1 with loading := true, error := "" },
       Cmd.batch [Cmd.loadGlobalSearch m1.globalSearchQuery, Cmd.tickSpinner])
    else
      Model.backspaceNav { m1 with searchResults := [] }
  else m.backspaceNav

/-- `"esc"` case of `Update` (no `viewGlobalSearch` branch). -/
def Model.handleEsc (m : Model) : Model × Cmd :=
  if m.helpMode then ({ m with helpMode := false }, Cmd.none)
  else if m.numberInput ≠ "" then ({ m with numberInput := "" }, Cmd.none)
  else if m.currentView = viewDatabases ∨ m.currentView = viewCollections then
    ({ m with currentView := viewMainMenu, cursor := 0, selectedDatabase := Option.none,
              databases := [], collections := [] }, Cmd.none)
  else if m.currentView = viewCollectionItems then m.backNavCollectionItems
  else if m.currentView = viewSchemas then
    ({ m with currentView := viewDatabases, cursor := 0, selectedDatabase := Option.none,
              schemas := [] }, Cmd.none)
  else if m.currentView = viewTables then
    ({ m with currentView := viewSchemas, cursor := 0, selectedSchema := Option.none,
              tables := [] }, Cmd.none)
  else if m.currentView = viewFields then
    ({ m with currentView := viewTables, cursor := 0, selectedTable := Option.none,
              fields := [] }, Cmd.none)
  else (m, Cmd.none)

/-- `"?"` case of `Update`: toggle help mode, resetting the help cursor when
entering. -/
def Model.handleHelpToggle (m : Model) : Model × Cmd :=
  let m1 := { m with helpMode := !m.helpMode }
  if m1.helpMode then ({ m1 with helpCursor := 0 }, Cmd.none) else (m1, Cmd.none)

/-- `"/"` case of `Update`: enter global search (unless help is open). -/
def Model.handleSlash (m : Model) : Model × Cmd :=
  if m.helpMode then (m, Cmd.none)
  else
    ({ m with currentView := viewGlobalSearch, globalSearchQuery := "", cursor := 0,
              loading := false, error := "", searchResults := [] }, Cmd.none)

/-- Default key case of `Update`: typing into the global search query.  Only
keys whose string is a single byte are appended, and a fetch is scheduled
only once the query is at least two bytes long. -/
def Model.handleDefaultKey (m : Model) (s : String) : Model × Cmd :=
  if m.currentView = viewGlobalSearch ∧ m.loading = false then
    if goLen s = 1 then
      let m1 := { m with globalSearchQuery := m.globalSearchQuery ++ s, cursor := 0 }
      if 2 ≤ goLen m1.globalSearchQuery then
        ({ m1 with loading := true, error := "" },
         Cmd.batch [Cmd.loadGlobalSearch m1.globalSearchQuery, Cmd.tickSpinner])
      else (m1, Cmd.none)
    else (m, Cmd.none)
  else (m, Cmd.none)

/-- The ten digit-key strings. -/
def digitKeys : List String := ["0", "1", "2", "3", "4", "5", "6", "7", "8", "9"]

/-- Dispatch of the `tea.KeyMsg` switch in `Update`, keyed on
`msg.String()`. -/
def Model.handleKey (m : Model) (s : String) : Model × Cmd :=
  if s = "ctrl+c" ∨ s = "q" then (m, Cmd.quit)
  else if s = "?" then m.handleHelpToggle
  else if s = "/" then m.handleSlash
  else if s ∈ digitKeys then m.handleDigit s
  else if s = "up" ∨ s = "k" then m.handleUpK
  else if s = "down" ∨ s = "j" then m.handleDownJ
  else if s = "left" ∨ s = "h" then m.handleLeftH
  else if s = "right" ∨ s = "l" then m.handleForward
  else if s = "enter" then m.handleForward
  else if s = "w" then m.handleW
  else if s = "backspace" then m.handleBackspace
  else if s = "esc" then m.handleEsc
  else m.handleDefaultKey s

/-- `Model.Update` from `part_006`: the complete message loop of the
navigation state machine. -/
def Model.Update (m : Model) (msg : Msg) : Model × Cmd :=
  match msg with
  | Msg.key s => m.handleKey s
  | Msg.connectionTested err =>
    match err with
    | some e => ({ m with error := e }, Cmd.none)
    | Option.none => (m, Cmd.none)
  | Msg.databasesLoaded dbs err =>
    let m1 := { m with loading := false }
    match err with
    | some e => ({ m1 with error := e }, Cmd.none)
    | Option.none => ({ m1 with databases := dbs }, Cmd.none)
  | Msg.collectionsLoaded cs err =>
    let m1 := { m with loading := false }
    match err with
    | some e => ({ m1 with error := e }, Cmd.none)
    | Option.none => ({ m1 with collections := cs }, Cmd.none)
  | Msg.collectionItemsLoaded items err =>
    let m1 := { m with loading := false }
    match err with
    | some e => ({ m1 with error := e }, Cmd.none)
    | Option.none =>
      let m2 := { m1 with collectionItems := items, viewportStart := 0 }
      if 0 < m2.collectionItems.length then
        (m2.updateViewport m2.collectionItems.length, Cmd.none)
      else (m2, Cmd.none)
  | Msg.globalSearchLoaded results err =>
    let m1 := { m with loading := false }
    match err with
    | some e => ({ m1 with error := e }, Cmd.none)
    | Option.none => ({ m1 with searchResults := results }, Cmd.none)
  | Msg.schemasLoaded ss err =>
    let m1 := { m with loading := false }
    match err with
    | some e => ({ m1 with error := e }, Cmd.none)
    | Option.none =>
      let m2 := { m1 with schemas := ss }
      if m2.schemas.length = 1 then
        let sch := m2.schemas.getD 0 default
        ({ m2 with selectedSchema := some sch, currentView := viewTables, cursor := 0,
                   loading := true },
         Cmd.batch [Cmd.loadTablesForSchema (derefDatabaseId m2.selectedDatabase) sch.name,
                    Cmd.tickSpinner])
      else (m2, Cmd.none)
  | Msg.tablesLoaded ts err =>
    let m1 := { m with loading := false }
    match err with
    | some e => ({ m1 with error := e }, Cmd.none)
    | Option.none => ({ m1 with tables := ts }, Cmd.none)
  | Msg.fieldsLoaded fs err =>
    let m1 := { m with loading := false }
    match err with
    | some e => ({ m1 with error := e }, Cmd.none)
    | Option.none => ({ m1 with fields := fs }, Cmd.none)
  | Msg.versionChecked lv err =>
    if err = Option.none ∧ lv ≠ "" then
      let m1 := { m with latestVersion := lv }
      if m1.Version ≠ "dev" then
        if goTrimV m1.Version ≠ goTrimV lv then ({ m1 with updateAvailable := true }, Cmd.none)
        else (m1, Cmd.none)
      else (m1, Cmd.none)
    else (m, Cmd.none)
  | Msg.spinnerTick =>
    if m.loading then ({ m with spinnerIndex := (m.spinnerIndex + 1) % 10 }, Cmd.tickSpinner)
    else (m, Cmd.none)

/-- Subsequence test on character lists (helper for the quick-filter
model). -/
def isSubseq : List Char → List Char → Bool
  | [], _ => true
  | _ :: _, [] => false
  | a :: as, b :: bs => if a = b then isSubseq as bs else isSubseq (a :: as) bs

/-- Collaborator model: the quick-filter library (`sahilm/fuzzy`), declared
out of scope by the spec ("pure function, no side effects", returning
"ordered indices with scores").  Modelled as case-insensitive subsequence
matching that keeps matching candidates in input order (the library's
scoring order is abstracted; the claims depend only on which indices can
appear, never on their order).  An empty pattern matches nothing. -/
def fuzzyFind (q : String) (names : List String) : List Nat :=
  if q = "" then []
  else (names.enum.filter (fun p => isSubseq q.toLower.toList p.2.toLower.toList)).map (·.1)

/-- `updateSearch` from `part_002`/`view.go`: recompute `filteredIndices`
for the current view from the fuzzy matches of the search query against the
display names.  The guard clause and the `viewMainMenu` case return before
the final cursor reset; `viewGlobalSearch` has no case in the switch and so
reaches the reset with the indices still cleared. -/
def Model.updateSearch (m : Model) : Model :=
  if !m.searchMode || m.searchQuery = "" then { m with filteredIndices := [] }
  else
    match m.currentView with
    | viewMainMenu => { m with filteredIndices := [] }
    | viewDatabases =>
      { m with filteredIndices := fuzzyFind m.searchQuery (m.databases.map (·.name)),
               cursor := 0 }
    | viewCollections =>
      { m with filteredIndices := fuzzyFind m.searchQuery (m.collections.map (·.name)),
               cursor := 0 }
    | viewCollectionItems =>
      { m with filteredIndices := fuzzyFind m.searchQuery (m.collectionItems.map (·.name)),
               cursor := 0 }
    | viewSchemas =>
      { m with filteredIndices := fuzzyFind m.searchQuery (m.schemas.map (·.name)),
               cursor := 0 }
    | viewTables =>
      { m with filteredIndices :=
                 fuzzyFind m.searchQuery
                   (m.tables.map (fun t => if t.displayName = "" then t.name else t.displayName)),
               cursor := 0 }
    | viewFields =>
      { m with filteredIndices :=
                 fuzzyFind m.searchQuery
                   (m.fields.map (fun f => if f.displayName = "" then f.name else f.displayName)),
               cursor := 0 }
    | viewGlobalSearch => { m with filteredIndices := [], cursor := 0 }

example (m : Model) : m.handleKey "up" = m.handleUpK := rfl
example (m : Model) : m.handleKey "j" = m.handleDownJ := rfl
example (m : Model) : m.handleKey "backspace" = m.handleBackspace := rfl
example (m : Model) : m.handleKey "x" = m.handleDefaultKey "x" := rfl
example : goAtoi "12" = some 12 := by decide
example : goAtoi "001" = some 1 := by decide
example : goAtoi "" = Option.none := by decide

/-! ## C4: viewport invariant -/

/-- A state whose viewport start is above the clamp bound while the cursor is
inside the visible window. -/
def viewportCexModel : Model := { cursor := 12, viewportStart := 10, viewportHeight := 17 }

/-- C4 counterexample: calling `updateViewport` with `itemCount = 15` on a
state with `viewportStart = 10`, `cursor = 12` — the cursor is within the
visible range `[10, 10+17)` before the call and `0 ≤ 12 < 15`, yet the call
clamps `viewportStart` to `0 ≠ 10`, so "start is left unchanged when the
cursor was already within the visible range" fails. -/
theorem C4_viewport_counterexample :
    (0 ≤ viewportCexModel.cursor ∧ viewportCexModel.cursor < 15) ∧
    (viewportCexModel.viewportStart ≤ viewportCexModel.cursor ∧
      viewportCexModel.cursor <
        viewportCexModel.viewportStart + (viewportCexModel.updateViewport 15).viewportHeight) ∧
    (viewportCexModel.updateViewport 15).viewportStart ≠ viewportCexModel.viewportStart := by
  decide

/-- C4 (amended): after `updateViewport itemCount` with `0 ≤ cursor <
itemCount`, the new start satisfies `start ≤ cursor < start + height` and
`0 ≤ start ≤ max 0 (itemCount - height)`; and the start is left unchanged
when the cursor was already within the visible range before the call *and*
the old start already lay within `[0, max 0 (itemCount - height)]`. -/
theorem C4_updateViewport_invariant (m : Model) (itemCount : Int)
    (h0 : 0 ≤ m.cursor) (h1 : m.cursor < itemCount) :
    ((m.updateViewport itemCount).viewportStart ≤ m.cursor ∧
      m.cursor < (m.updateViewport itemCount).viewportStart
                   + (m.updateViewport itemCount).viewportHeight) ∧
    (0 ≤ (m.updateViewport itemCount).viewportStart ∧
      (m.updateViewport itemCount).viewportStart
        ≤ max 0 (itemCount - (m.updateViewport itemCount).viewportHeight)) ∧
    (0 ≤ m.viewportStart →
      m.viewportStart ≤ max 0 (itemCount - (m.updateViewport itemCount).viewportHeight) →
      m.viewportStart ≤ m.cursor →
      m.cursor < m.viewportStart + (m.updateViewport itemCount).viewportHeight →
      (m.updateViewport itemCount).viewportStart = m.viewportStart) := by
  simp only [Model.updateViewport]
  split_ifs <;> simp_all <;> omega

/-- Witness for `C4_updateViewport_invariant` at a concrete state. -/
theorem C4_updateViewport_invariant_witness :
    (0 ≤ (({ cursor := 3 } : Model)).cursor ∧ (({ cursor := 3 } : Model)).cursor < 5) ∧
    ((((({ cursor := 3 } : Model)).updateViewport 5).viewportStart ≤ (({ cursor := 3 } : Model)).cursor ∧
      (({ cursor := 3 } : Model)).cursor < ((({ cursor := 3 } : Model)).updateViewport 5).viewportStart
                   + ((({ cursor := 3 } : Model)).updateViewport 5).viewportHeight) ∧
    (0 ≤ ((({ cursor := 3 } : Model)).updateViewport 5).viewportStart ∧
      ((({ cursor := 3 } : Model)).updateViewport 5).viewportStart
        ≤ max 0 (5 - ((({ cursor := 3 } : Model)).updateViewport 5).viewportHeight)) ∧
    (0 ≤ (({ cursor := 3 } : Model)).viewportStart →
      (({ cursor := 3 } : Model)).viewportStart
        ≤ max 0 (5 - ((({ cursor := 3 } : Model)).updateViewport 5).viewportHeight) →
      (({ cursor := 3 } : Model)).viewportStart ≤ (({ cursor := 3 } : Model)).cursor →
      (({ cursor := 3 } : Model)).cursor
        < (({ cursor := 3 } : Model)).viewportStart + ((({ cursor := 3 } : Model)).updateViewport 5).viewportHeight →
      ((({ cursor := 3 } : Model)).updateViewport 5).viewportStart = (({ cursor := 3 } : Model)).viewportStart)) :=
  ⟨⟨by decide, by decide⟩, C4_updateViewport_invariant { cursor := 3 } 5 (by decide) (by decide)⟩

/-! ## C9: spinner tick -/

/-- An idle state (no load in flight). -/
def idleSpinnerModel : Model := { loading := false, spinnerIndex := 4 }

/-- C9 counterexample: a spinner tick processed while `loading` is false
does *not* reschedule itself (the returned command is `none`, not a new
tick), contradicting "the tick reschedules itself each time it fires". -/
theorem C9_spinner_counterexample :
    (idleSpinnerModel.Update Msg.spinnerTick).2 ≠ Cmd.tickSpinner ∧
    (idleSpinnerModel.Update Msg.spinnerTick).1 = idleSpinnerModel := by
  refine ⟨fun h => ?_, rfl⟩
  simp [Model.Update, idleSpinnerModel] at h

/-- C9 (amended): while `loading` is true a spinner tick advances the
spinner index (mod 10), changes nothing else, and reschedules itself; a tick
arriving while `loading` is false changes nothing and does not reschedule. -/
theorem C9_spinner_tick (m : Model) :
    (m.loading = true →
      m.Update Msg.spinnerTick
        = ({ m with spinnerIndex := (m.spinnerIndex + 1) % 10 }, Cmd.tickSpinner)) ∧
    (m.loading = false → m.Update Msg.spinnerTick = (m, Cmd.none)) := by
  constructor <;> intro h <;> simp [Model.Update, h]

/-- Witness for `C9_spinner_tick`: a loading state advances and reschedules. -/
theorem C9_spinner_tick_witness :
    ({ loading := true, spinnerIndex := 9 } : Model).Update Msg.spinnerTick
      = ({ ({ loading := true, spinnerIndex := 9 } : Model) with spinnerIndex := (9 + 1) % 10 },
         Cmd.tickSpinner) :=
  (C9_spinner_tick { loading := true, spinnerIndex := 9 }).1 rfl

/-! ## C3: auto-skip of a single schema -/

/-- C3: a successful `schemasLoaded` with exactly one schema auto-selects it,
switches to the tables view, resets the cursor, sets loading and schedules
the tables fetch for that schema; any other schema count merely stores the
schemas and clears loading, with no transition and no command. -/
theorem C3_schemas_auto_skip (m : Model) (ss : List Schema) :
    (∀ s db, m.selectedDatabase = some db → ss = [s] →
      m.Update (Msg.schemasLoaded ss Option.none)
        = ({ m with schemas := ss, selectedSchema := some s, currentView := viewTables,
                    cursor := 0, loading := true },
           Cmd.batch [Cmd.loadTablesForSchema db.id s.name, Cmd.tickSpinner])) ∧
    (ss.length ≠ 1 →
      m.Update (Msg.schemasLoaded ss Option.none)
        = ({ m with loading := false, schemas := ss }, Cmd.none)) := by
  constructor
  · rintro s db hdb rfl
    simp [Model.Update, hdb, derefDatabaseId]
  · intro hlen
    simp [Model.Update, hlen]

/-- Witness for `C3_schemas_auto_skip` at concrete states: one schema
auto-advances; two schemas do not. -/
theorem C3_schemas_auto_skip_witness :
    (({ selectedDatabase := some { id := 7, name := "db" } } : Model).Update
        (Msg.schemasLoaded [{ name := "public" }] Option.none)
      = ({ ({ selectedDatabase := some { id := 7, name := "db" } } : Model) with
             schemas := [{ name := "public" }], selectedSchema := some { name := "public" },
             currentView := viewTables, cursor := 0, loading := true },
         Cmd.batch [Cmd.loadTablesForSchema 7 "public", Cmd.tickSpinner])) ∧
    (({ selectedDatabase := some { id := 7, name := "db" } } : Model).Update
        (Msg.schemasLoaded [{ name := "a" }, { name := "b" }] Option.none)
      = ({ ({ selectedDatabase := some { id := 7, name := "db" } } : Model) with
             loading := false, schemas := [{ name := "a" }, { name := "b" }] }, Cmd.none)) :=
  ⟨(C3_schemas_auto_skip { selectedDatabase := some { id := 7, name := "db" } }
      [{ name := "public" }]).1 { name := "public" } { id := 7, name := "db" } rfl rfl,
   (C3_schemas_auto_skip { selectedDatabase := some { id := 7, name := "db" } }
      [{ name := "a" }, { name := "b" }]).2 (by decide)⟩

/-! ## C5: failed loads set the error and keep the lists -/

/-- C5: every load-completion message carrying an error leaves the state
exactly as it was apart from `error := e` and `loading := false`; in
particular the item list of that level is untouched, and no command is
issued. -/
theorem C5_load_error_preserves_lists (m : Model) (e : String)
    (dbs : List Database) (cs : List Collection) (items : List CollectionItem)
    (rs : List SearchResult) (ss : List Schema) (ts : List Table) (fs : List Field) :
    m.Update (Msg.databasesLoaded dbs (some e)) = ({ m with loading := false, error := e }, Cmd.none) ∧
    m.Update (Msg.collectionsLoaded cs (some e)) = ({ m with loading := false, error := e }, Cmd.none) ∧
    m.Update (Msg.collectionItemsLoaded items (some e)) = ({ m with loading := false, error := e }, Cmd.none) ∧
    m.Update (Msg.globalSearchLoaded rs (some e)) = ({ m with loading := false, error := e }, Cmd.none) ∧
    m.Update (Msg.schemasLoaded ss (some e)) = ({ m with loading := false, error := e }, Cmd.none) ∧
    m.Update (Msg.tablesLoaded ts (some e)) = ({ m with loading := false, error := e }, Cmd.none) ∧
    m.Update (Msg.fieldsLoaded fs (some e)) = ({ m with loading := false, error := e }, Cmd.none) := by
  refine ⟨rfl, rfl, rfl, rfl, rfl, rfl, rfl⟩

/-! ## C2: backward navigation in the collection-items view -/

/-- The four backward keys. -/
def backwardKeys : List String := ["left", "h", "backspace", "esc"]

/-- C2: in the collection-items view (help overlay closed, empty numeric
buffer), any backward key with a non-empty collection stack pops the top
reference, makes it the current collection, resets the cursor, sets loading
and schedules a fresh fetch of the parent's items; with an empty stack it
instead falls back to the root collections view, clearing the selected
collection and the item list. -/
theorem C2_collectionItems_backward (m : Model)
    (hview : m.currentView = viewCollectionItems) (hhelp : m.helpMode = false)
    (hnum : m.numberInput = "") :
    (∀ rest c, m.collectionStack = rest ++ [some c] →
      ∀ key, key ∈ backwardKeys →
        m.Update (Msg.key key)
          = ({ m with selectedCollection := some c, collectionStack := rest,
                      cursor := 0, loading := true, error := "" },
             Cmd.batch [Cmd.loadCollectionItems c.id, Cmd.tickSpinner])) ∧
    (m.collectionStack = [] →
      ∀ key, key ∈ backwardKeys →
        m.Update (Msg.key key)
          = ({ m with currentView := viewCollections, cursor := 0,
                      selectedCollection := Option.none, collectionItems := [] },
             Cmd.none)) := by
  constructor
  · rintro rest c hstack key hkey
    simp only [backwardKeys, List.mem_cons, List.not_mem_nil, or_false] at hkey
    rcases hkey with rfl | rfl | rfl | rfl
    all_goals
      simp [Model.Update, Model.handleKey, digitKeys, Model.handleLeftH, Model.handleBackspace,
            Model.handleEsc, Model.backspaceNav, Model.backNavCollectionItems,
            hview, hhelp, hnum, hstack, derefCollectionId]
  · rintro hstack key hkey
    simp only [backwardKeys, List.mem_cons, List.not_mem_nil, or_false] at hkey
    rcases hkey with rfl | rfl | rfl | rfl
    all_goals
      simp [Model.Update, Model.handleKey, digitKeys, Model.handleLeftH, Model.handleBackspace,
            Model.handleEsc, Model.backspaceNav, Model.backNavCollectionItems,
            hview, hhelp, hnum, hstack]

/-- Collection-items state one level deep (one stacked ancestor). -/
def deepCollectionModel : Model :=
  { currentView := viewCollectionItems,
    selectedCollection := some { id := CollectionId.intId 2, name := "child" },
    collectionStack := [some { id := CollectionId.intId 1, name := "parent" }] }

/-- Collection-items state at the top of the tree (empty stack). -/
def rootCollectionModel : Model :=
  { currentView := viewCollectionItems,
    selectedCollection := some { id := CollectionId.intId 2, name := "child" },
    collectionItems := [{ id := 5, name := "x", model := "card" }] }

/-- Witness for `C2_collectionItems_backward`: a pop from depth one and an
empty-stack fallback, at concrete states. -/
theorem C2_collectionItems_backward_witness :
    (deepCollectionModel.Update (Msg.key "backspace")
      = ({ deepCollectionModel with
             selectedCollection := some { id := CollectionId.intId 1, name := "parent" },
             collectionStack := [], cursor := 0, loading := true, error := "" },
         Cmd.batch [Cmd.loadCollectionItems (CollectionId.intId 1), Cmd.tickSpinner])) ∧
    (rootCollectionModel.Update (Msg.key "esc")
      = ({ rootCollectionModel with
             currentView := viewCollections, cursor := 0,
             selectedCollection := Option.none, collectionItems := [] }, Cmd.none)) :=
  ⟨(C2_collectionItems_backward deepCollectionModel rfl rfl rfl).1 []
      { id := CollectionId.intId 1, name := "parent" } rfl "backspace" (by decide),
   (C2_collectionItems_backward rootCollectionModel rfl rfl rfl).2 rfl "esc" (by decide)⟩

/-! ## C6: numeric quick-select -/

/-- The per-view item count of the numeric quick-select is never negative. -/
theorem Model.itemCount_nonneg (m : Model) : 0 ≤ m.itemCount := by
  unfold Model.itemCount
  rcases m.currentView <;> simp

/-- `itemCount` ignores the numeric buffer and the help flag. -/
theorem Model.itemCount_set_buffer (m : Model) (q : String) (b : Bool) :
    ({ m with numberInput := q, helpMode := b } : Model).itemCount = m.itemCount := rfl

/-- Behaviour of the digit-key handler outside help mode: no command and no
view change ever; an in-range parse moves the cursor to `value - 1` and
keeps the buffer; a parse failure or an over-range value keeps the cursor,
and discards the buffer exactly when the buffer has at least 3 bytes or has
2 bytes with a non-zero leading digit. -/
theorem handleDigit_spec (m : Model) (d : String) (hhelp : m.helpMode = false) :
    (m.handleDigit d).2 = Cmd.none ∧
    (m.handleDigit d).1.currentView = m.currentView ∧
    (∀ n, goAtoi (m.numberInput ++ d) = some n → 1 ≤ n → n ≤ m.itemCount →
      (m.handleDigit d).1.cursor = n - 1 ∧
      (m.handleDigit d).1.numberInput = m.numberInput ++ d) ∧
    ((goAtoi (m.numberInput ++ d) = Option.none ∨
        (∃ n, goAtoi (m.numberInput ++ d) = some n ∧ ¬(1 ≤ n ∧ n ≤ m.itemCount))) →
      (m.handleDigit d).1.cursor = m.cursor) ∧
    (((3 ≤ goLen (m.numberInput ++ d) ∨
        (goLen (m.numberInput ++ d) = 2 ∧ (m.numberInput ++ d).front ≠ '0')) ∧
       (goAtoi (m.numberInput ++ d) = Option.none ∨
         (∃ n, goAtoi (m.numberInput ++ d) = some n ∧ m.itemCount < n))) →
      (m.handleDigit d).1.numberInput = "") ∧
    (¬((3 ≤ goLen (m.numberInput ++ d) ∨
        (goLen (m.numberInput ++ d) = 2 ∧ (m.numberInput ++ d).front ≠ '0')) ∧
       (goAtoi (m.numberInput ++ d) = Option.none ∨
         (∃ n, goAtoi (m.numberInput ++ d) = some n ∧ m.itemCount < n))) →
      (m.handleDigit d).1.numberInput = m.numberInput ++ d) := by
  have hcnt := m.itemCount_nonneg
  unfold Model.handleDigit
  simp only [hhelp, Bool.false_eq_true, if_false, Model.itemCount_set_buffer]
  rcases hA : goAtoi (m.numberInput ++ d) with _ | n <;>
    simp only [hA] <;> split_ifs <;>
    simp_all

/-- C6 (amended): a digit key (help overlay closed) triggers no view change
and no command; if the grown buffer parses into `[1, itemCount]` the cursor
hovers at `value - 1`; otherwise the cursor stays and the buffer is
discarded exactly when the parse failed or exceeded `itemCount` *and* the
buffer has reached 3 bytes, or 2 bytes with non-zero leading digit.  (In
particular a 3-byte buffer whose value is in range, such as `"001"`, is
kept.) -/
theorem C6_numeric_quick_select (m : Model) (d : String)
    (hd : d ∈ digitKeys) (hhelp : m.helpMode = false) :
    (m.Update (Msg.key d)).2 = Cmd.none ∧
    (m.Update (Msg.key d)).1.currentView = m.currentView ∧
    (∀ n, goAtoi (m.numberInput ++ d) = some n → 1 ≤ n → n ≤ m.itemCount →
      (m.Update (Msg.key d)).1.cursor = n - 1 ∧
      (m.Update (Msg.key d)).1.numberInput = m.numberInput ++ d) ∧
    ((goAtoi (m.numberInput ++ d) = Option.none ∨
        (∃ n, goAtoi (m.numberInput ++ d) = some n ∧ ¬(1 ≤ n ∧ n ≤ m.itemCount))) →
      (m.Update (Msg.key d)).1.cursor = m.cursor) ∧
    (((3 ≤ goLen (m.numberInput ++ d) ∨
        (goLen (m.numberInput ++ d) = 2 ∧ (m.numberInput ++ d).front ≠ '0')) ∧
       (goAtoi (m.numberInput ++ d) = Option.none ∨
         (∃ n, goAtoi (m.numberInput ++ d) = some n ∧ m.itemCount < n))) →
      (m.Update (Msg.key d)).1.numberInput = "") ∧
    (¬((3 ≤ goLen (m.numberInput ++ d) ∨
        (goLen (m.numberInput ++ d) = 2 ∧ (m.numberInput ++ d).front ≠ '0')) ∧
       (goAtoi (m.numberInput ++ d) = Option.none ∨
         (∃ n, goAtoi (m.numberInput ++ d) = some n ∧ m.itemCount < n))) →
      (m.Update (Msg.key d)).1.numberInput = m.numberInput ++ d) := by
  simp only [digitKeys, List.mem_cons, List.not_mem_nil, or_false] at hd
  have key : m.Update (Msg.key d) = m.handleDigit d := by
    rcases hd with rfl | rfl | rfl | rfl | rfl | rfl | rfl | rfl | rfl | rfl <;> rfl
  rw [key]
  exact handleDigit_spec m d hhelp

/-- A 15-item databases view with a pending one-digit buffer. -/
def quickSelectModel : Model :=
  { currentView := viewDatabases,
    databases := List.replicate 15 { id := 0, name := "d" },
    numberInput := "1" }

/-- Witness for `C6_numeric_quick_select`: the spec's own scenario — typing
`"1"` then `"2"` in a 15-item list lands the cursor on index `12 - 1 = 11`
with the buffer kept. -/
theorem C6_numeric_quick_select_witness :
    (quickSelectModel.Update (Msg.key "2")).1.cursor = 12 - 1 ∧
    (quickSelectModel.Update (Msg.key "2")).1.numberInput = "1" ++ "2" :=
  (C6_numeric_quick_select quickSelectModel "2" (by decide) rfl).2.2.1 12
    (by decide) (by decide) (by decide)

/-- A 15-item databases view with a two-zero buffer. -/
def zeroBufferModel : Model :=
  { currentView := viewDatabases,
    databases := List.replicate 15 { id := 0, name := "d" },
    numberInput := "00" }

/-- C6 counterexample: typing `"1"` after `"00"` in a 15-item list grows the
buffer to the 3-byte `"001"`, whose value `1` is in range — the buffer is
*kept* (and the cursor hovers at index 0), so "the buffer is discarded when
its length reaches 3 characters" fails as stated. -/
theorem C6_numeric_counterexample :
    (zeroBufferModel.Update (Msg.key "1")).1.numberInput = "001" ∧
    goLen ((zeroBufferModel.Update (Msg.key "1")).1.numberInput) = 3 ∧
    (zeroBufferModel.Update (Msg.key "1")).1.cursor = 0 := by decide

/-! ## C1: vertical moves keep the cursor in bounds -/

/-- Length of the list displayed by the current view (the main menu always
shows its fixed two entries). -/
def Model.displayedLength (m : Model) : Nat :=
  match m.currentView with
  | viewMainMenu => 2
  | viewDatabases => m.databases.length
  | viewSchemas => m.schemas.length
  | viewTables => m.tables.length
  | viewFields => m.fields.length
  | viewCollections => m.collections.length
  | viewCollectionItems => m.collectionItems.length
  | viewGlobalSearch => m.searchResults.length

/-- The cursor invariant of the spec: `0 <= cursor < displayedLength` for a
non-empty displayed list, and `cursor = 0` for an empty one. -/
def Model.cursorOK (m : Model) : Prop :=
  (m.displayedLength = 0 -> m.cursor = 0) /\
  (0 < m.displayedLength -> 0 <= m.cursor /\ m.cursor < (m.displayedLength : Int))

instance (m : Model) : Decidable m.cursorOK := by
  unfold Model.cursorOK
  infer_instance

/-- The four vertical-move keys. -/
def verticalKeys : List String := ["up", "down", "k", "j"]

/-- `updateViewport` only touches the viewport fields. -/
theorem updateViewport_only_viewport (m : Model) (n : Int) :
    (m.updateViewport n).cursor = m.cursor ∧
    (m.updateViewport n).currentView = m.currentView ∧
    (m.updateViewport n).helpMode = m.helpMode ∧
    (m.updateViewport n).databases = m.databases ∧
    (m.updateViewport n).schemas = m.schemas ∧
    (m.updateViewport n).tables = m.tables ∧
    (m.updateViewport n).fields = m.fields ∧
    (m.updateViewport n).collections = m.collections ∧
    (m.updateViewport n).collectionItems = m.collectionItems ∧
    (m.updateViewport n).searchResults = m.searchResults :=
  ⟨rfl, rfl, rfl, rfl, rfl, rfl, rfl, rfl, rfl, rfl⟩

/-- `displayedLength` only reads the view tag and the item lists. -/
theorem Model.displayedLength_congr (a b : Model) (hv : a.currentView = b.currentView)
    (h1 : a.databases = b.databases) (h2 : a.schemas = b.schemas) (h3 : a.tables = b.tables)
    (h4 : a.fields = b.fields) (h5 : a.collections = b.collections)
    (h6 : a.collectionItems = b.collectionItems) (h7 : a.searchResults = b.searchResults) :
    a.displayedLength = b.displayedLength := by
  unfold Model.displayedLength
  rw [hv]
  rcases hb : b.currentView <;> simp [h1, h2, h3, h4, h5, h6, h7]

/-- Effect of one `"up"`/`"k"` event outside help mode: view, lists and the
help flag are untouched and the cursor decrements exactly when it was
positive. -/
theorem handleUpK_fields (m : Model) (hhelp : m.helpMode = false) :
    m.handleUpK.1.helpMode = false ∧
    m.handleUpK.1.currentView = m.currentView ∧
    m.handleUpK.1.databases = m.databases ∧
    m.handleUpK.1.schemas = m.schemas ∧
    m.handleUpK.1.tables = m.tables ∧
    m.handleUpK.1.fields = m.fields ∧
    m.handleUpK.1.collections = m.collections ∧
    m.handleUpK.1.collectionItems = m.collectionItems ∧
    m.handleUpK.1.searchResults = m.searchResults ∧
    m.handleUpK.1.cursor = (if 0 < m.cursor then m.cursor - 1 else m.cursor) := by
  have hnb : (m.helpMode = true) = False := by simp [hhelp]
  simp only [Model.handleUpK, hnb, if_false]
  split_ifs <;> simp_all [Model.updateViewport]

/-- Effect of one `"down"`/`"j"` event outside help mode: view, lists and
the help flag are untouched, and the cursor either stays or increments,
the latter only when it was strictly below `displayedLength - 1`. -/
theorem handleDownJ_fields (m : Model) (hhelp : m.helpMode = false) :
    m.handleDownJ.1.helpMode = false ∧
    m.handleDownJ.1.currentView = m.currentView ∧
    m.handleDownJ.1.databases = m.databases ∧
    m.handleDownJ.1.schemas = m.schemas ∧
    m.handleDownJ.1.tables = m.tables ∧
    m.handleDownJ.1.fields = m.fields ∧
    m.handleDownJ.1.collections = m.collections ∧
    m.handleDownJ.1.collectionItems = m.collectionItems ∧
    m.handleDownJ.1.searchResults = m.searchResults ∧
    (m.handleDownJ.1.cursor = m.cursor ∨
      (m.handleDownJ.1.cursor = m.cursor + 1 ∧ m.cursor < (m.displayedLength : Int) - 1)) := by
  have hnb : (m.helpMode = true) = False := by simp [hhelp]
  simp only [Model.handleDownJ, hnb, if_false]
  unfold Model.displayedLength
  split_ifs <;> simp_all [Model.updateViewport]

/-- One `"up"`/`"k"` event preserves the cursor invariant (help overlay
closed). -/
theorem handleUpK_preserves (m : Model) (hhelp : m.helpMode = false) (hinv : m.cursorOK) :
    m.handleUpK.1.helpMode = false ∧ m.handleUpK.1.cursorOK := by
  obtain ⟨hH, hV, hD, hS, hT, hF, hC, hCI, hSR, hcur⟩ := handleUpK_fields m hhelp
  have hlen : m.handleUpK.1.displayedLength = m.displayedLength :=
    Model.displayedLength_congr _ _ hV hD hS hT hF hC hCI hSR
  refine ⟨hH, ?_, ?_⟩ <;> rw [hlen, hcur] <;>
    rcases hinv with ⟨h0, hpos⟩
  · intro hz
    have := h0 hz
    split_ifs <;> omega
  · intro hp
    have := hpos hp
    split_ifs <;> omega

/-- One `"down"`/`"j"` event preserves the cursor invariant (help overlay
closed). -/
theorem handleDownJ_preserves (m : Model) (hhelp : m.helpMode = false) (hinv : m.cursorOK) :
    m.handleDownJ.1.helpMode = false ∧ m.handleDownJ.1.cursorOK := by
  obtain ⟨hH, hV, hD, hS, hT, hF, hC, hCI, hSR, hcur⟩ := handleDownJ_fields m hhelp
  have hlen : m.handleDownJ.1.displayedLength = m.displayedLength :=
    Model.displayedLength_congr _ _ hV hD hS hT hF hC hCI hSR
  rcases hinv with ⟨h0, hpos⟩
  refine ⟨hH, ?_, ?_⟩ <;> rw [hlen]
  · intro hz
    rcases hcur with h | ⟨h, hlt⟩ <;> rw [h]
    · exact h0 hz
    · exfalso
      have := h0 hz
      omega
  · intro hp
    have := hpos hp
    rcases hcur with h | ⟨h, hlt⟩ <;> rw [h] <;> omega

/-- One vertical-move key event preserves the cursor invariant. -/
theorem vertical_step (m : Model) (k : String) (hk : k ∈ verticalKeys)
    (hhelp : m.helpMode = false) (hinv : m.cursorOK) :
    (m.Update (Msg.key k)).1.helpMode = false /\ (m.Update (Msg.key k)).1.cursorOK := by
  simp only [verticalKeys, List.mem_cons, List.not_mem_nil, or_false] at hk
  rcases hk with rfl | rfl | rfl | rfl
  · exact handleUpK_preserves m hhelp hinv
  · exact handleDownJ_preserves m hhelp hinv
  · exact handleUpK_preserves m hhelp hinv
  · exact handleDownJ_preserves m hhelp hinv

/-- C1: starting from a state satisfying the cursor invariant with the help
overlay closed, any sequence of vertical-move key events (`up`, `down`,
`k`, `j`) keeps `0 <= cursor < displayedLength` for a non-empty displayed
list and `cursor = 0` for an empty one. -/
theorem C1_vertical_moves_cursor_in_bounds (m : Model) (ks : List String)
    (hks : ∀ k ∈ ks, k ∈ verticalKeys) (hhelp : m.helpMode = false) (hinv : m.cursorOK) :
    (ks.foldl (fun st k => (st.Update (Msg.key k)).1) m).cursorOK := by
  induction ks generalizing m with
  | nil => exact hinv
  | cons k ks ih =>
    have hstep := vertical_step m k (hks k (by simp)) hhelp hinv
    exact ih _ (fun k2 hk2 => hks k2 (by simp [hk2])) hstep.1 hstep.2

/-- A three-item collection-items view mid-list. -/
def verticalWitnessModel : Model :=
  { currentView := viewCollectionItems,
    collectionItems := [{ id := 1, name := "a", model := "card" },
                        { id := 2, name := "b", model := "card" },
                        { id := 3, name := "c", model := "card" }],
    cursor := 1 }

/-- Witness for `C1_vertical_moves_cursor_in_bounds`: a concrete key
sequence on a three-item list keeps the invariant. -/
theorem C1_vertical_moves_cursor_in_bounds_witness :
    (["down", "down", "j", "up", "k", "k"].foldl
        (fun st k => (st.Update (Msg.key k)).1) verticalWitnessModel).cursorOK :=
  C1_vertical_moves_cursor_in_bounds verticalWitnessModel ["down", "down", "j", "up", "k", "k"]
    (by decide) rfl (by decide)

/-! ## C10: digits never reach the global search query -/

/-- Key strings with a dedicated case in the `Update` key switch. -/
def handledKeyNames : List String :=
  ["ctrl+c", "q", "?", "/", "0", "1", "2", "3", "4", "5", "6", "7", "8", "9",
   "up", "k", "down", "j", "left", "h", "right", "l", "enter", "w", "backspace", "esc"]

/-- Any key without a dedicated case falls through to the default handler. -/
theorem handleKey_not_handled (m : Model) (s : String) (hs : s ∉ handledKeyNames) :
    m.handleKey s = m.handleDefaultKey s := by
  simp only [handledKeyNames, List.mem_cons, List.not_mem_nil, or_false, not_or] at hs
  obtain ⟨h1, h2, h3, h4, h5, h6, h7, h8, h9, h10, h11, h12, h13, h14,
          h15, h16, h17, h18, h19, h20, h21, h22, h23, h24, h25, h26⟩ := hs
  simp [Model.handleKey, digitKeys, h1, h2, h3, h4, h5, h6, h7, h8, h9, h10,
        h11, h12, h13, h14, h15, h16, h17, h18, h19, h20, h21, h22, h23, h24, h25, h26]

/-- C10: in the global-search view (help overlay closed) a digit key is
always consumed by the numeric quick-select buffer — the query and the view
are untouched and no command is issued — while any key without a dedicated
switch case extends the query exactly when its string is a single byte, with
a search scheduled exactly when the grown query has at least two bytes; a
multi-byte unhandled key changes nothing. -/
theorem C10_globalSearch_digits_vs_query (m : Model)
    (hview : m.currentView = viewGlobalSearch) (hhelp : m.helpMode = false) :
    (∀ d ∈ digitKeys,
      (m.Update (Msg.key d)).1.globalSearchQuery = m.globalSearchQuery ∧
      (m.Update (Msg.key d)).1.currentView = viewGlobalSearch ∧
      (m.Update (Msg.key d)).2 = Cmd.none ∧
      ((m.Update (Msg.key d)).1.numberInput = m.numberInput ++ d ∨
        (m.Update (Msg.key d)).1.numberInput = "")) ∧
    (∀ s, s ∉ handledKeyNames → goLen s = 1 → m.loading = false →
      (m.Update (Msg.key s)).1.globalSearchQuery = m.globalSearchQuery ++ s ∧
      (2 ≤ goLen (m.globalSearchQuery ++ s) →
        (m.Update (Msg.key s)).2
          = Cmd.batch [Cmd.loadGlobalSearch (m.globalSearchQuery ++ s), Cmd.tickSpinner]) ∧
      (¬ 2 ≤ goLen (m.globalSearchQuery ++ s) →
        (m.Update (Msg.key s)).2 = Cmd.none)) ∧
    (∀ s, s ∉ handledKeyNames → goLen s ≠ 1 →
      (m.Update (Msg.key s)).1 = m ∧ (m.Update (Msg.key s)).2 = Cmd.none) := by
  refine ⟨?_, ?_, ?_⟩
  · intro d hd
    simp only [digitKeys, List.mem_cons, List.not_mem_nil, or_false] at hd
    have key : m.Update (Msg.key d) = m.handleDigit d := by
      rcases hd with rfl | rfl | rfl | rfl | rfl | rfl | rfl | rfl | rfl | rfl <;> rfl
    rw [key]
    have hnb : (m.helpMode = true) = False := by simp [hhelp]
    simp only [Model.handleDigit, hnb, if_false, Model.itemCount_set_buffer]
    rcases hA : goAtoi (m.numberInput ++ d) with _ | n <;>
      simp only [hA] <;> split_ifs <;>
      simp_all [Model.itemCount, hview]
  · intro s hs hlen hload
    have key : m.Update (Msg.key s) = m.handleDefaultKey s := by
      rw [show m.Update (Msg.key s) = m.handleKey s from rfl, handleKey_not_handled m s hs]
    rw [key]
    simp only [Model.handleDefaultKey, hview, hload, hlen]
    split_ifs <;> simp_all
  · intro s hs hlen
    have key : m.Update (Msg.key s) = m.handleDefaultKey s := by
      rw [show m.Update (Msg.key s) = m.handleKey s from rfl, handleKey_not_handled m s hs]
    rw [key]
    rcases hl : m.loading <;> simp [Model.handleDefaultKey, hview, hlen, hl]

/-- A global-search state with a one-character query, not loading. -/
def globalSearchModel : Model :=
  { currentView := viewGlobalSearch, globalSearchQuery := "a", numberInput := "" }

/-- Witness for `C10_globalSearch_digits_vs_query`: the digit `"7"` goes to
the numeric buffer, and the unhandled single-byte key `"b"` grows the query
to two bytes, scheduling the search. -/
theorem C10_globalSearch_digits_vs_query_witness :
    ((globalSearchModel.Update (Msg.key "7")).1.globalSearchQuery = "a" ∧
      (globalSearchModel.Update (Msg.key "7")).1.currentView = viewGlobalSearch ∧
      (globalSearchModel.Update (Msg.key "7")).2 = Cmd.none ∧
      ((globalSearchModel.Update (Msg.key "7")).1.numberInput = "" ++ "7" ∨
        (globalSearchModel.Update (Msg.key "7")).1.numberInput = "")) ∧
    ((globalSearchModel.Update (Msg.key "b")).1.globalSearchQuery = "a" ++ "b" ∧
      (globalSearchModel.Update (Msg.key "b")).2
        = Cmd.batch [Cmd.loadGlobalSearch ("a" ++ "b"), Cmd.tickSpinner]) :=
  ⟨(C10_globalSearch_digits_vs_query globalSearchModel rfl rfl).1 "7" (by decide),
   ⟨((C10_globalSearch_digits_vs_query globalSearchModel rfl rfl).2.1 "b" (by decide)
       (by decide) rfl).1,
    ((C10_globalSearch_digits_vs_query globalSearchModel rfl rfl).2.1 "b" (by decide)
       (by decide) rfl).2.1 (by decide)⟩⟩

/-! ## C8: help-mode key interception -/

/-- The keys the help overlay actually intercepts (the `Update` cases for
`"w"` and `"backspace"` have no help-mode guard). -/
def helpInterceptedKeys : List String :=
  ["?", "/", "0", "1", "2", "3", "4", "5", "6", "7", "8", "9",
   "up", "k", "down", "j", "left", "h", "right", "l", "enter", "esc"]

/-- A help overlay opened on top of the databases view. -/
def helpOnDatabasesModel : Model :=
  { helpMode := true, currentView := viewDatabases,
    databases := [{ id := 1, name := "db" }],
    selectedDatabase := some { id := 1, name := "db" } }

/-- C8 counterexample: with the help overlay open on the databases view,
`"backspace"` is *not* intercepted — it performs the normal backward
transition, changing the current view (to the main menu) and clearing the
databases list. -/
theorem C8_help_mode_counterexample :
    helpOnDatabasesModel.helpMode = true ∧
    (helpOnDatabasesModel.Update (Msg.key "backspace")).1.currentView
      ≠ helpOnDatabasesModel.currentView ∧
    (helpOnDatabasesModel.Update (Msg.key "backspace")).1.databases
      ≠ helpOnDatabasesModel.databases := by
  decide

/-- C8 (amended): while help mode is active the keys `?`, `/`, the digits,
`up`/`k`, `down`/`j`, `left`/`h`, `right`/`l`, `enter` and `esc` are handled
by the help overlay alone: none of them changes the current view, the
cursor, the item lists, the selections, the collection stack, the global
search query or the loading flag.  (`"w"` and `"backspace"` are *not*
intercepted: `w` opens the current view's web URL and `backspace` performs
normal backward navigation.) -/
theorem C8_help_mode_intercepts (m : Model) (hhelp : m.helpMode = true) :
    ∀ s ∈ helpInterceptedKeys,
      (m.Update (Msg.key s)).1.currentView = m.currentView ∧
      (m.Update (Msg.key s)).1.cursor = m.cursor ∧
      (m.Update (Msg.key s)).1.databases = m.databases ∧
      (m.Update (Msg.key s)).1.schemas = m.schemas ∧
      (m.Update (Msg.key s)).1.tables = m.tables ∧
      (m.Update (Msg.key s)).1.fields = m.fields ∧
      (m.Update (Msg.key s)).1.collections = m.collections ∧
      (m.Update (Msg.key s)).1.collectionItems = m.collectionItems ∧
      (m.Update (Msg.key s)).1.searchResults = m.searchResults ∧
      (m.Update (Msg.key s)).1.selectedDatabase = m.selectedDatabase ∧
      (m.Update (Msg.key s)).1.selectedSchema = m.selectedSchema ∧
      (m.Update (Msg.key s)).1.selectedTable = m.selectedTable ∧
      (m.Update (Msg.key s)).1.selectedCollection = m.selectedCollection ∧
      (m.Update (Msg.key s)).1.collectionStack = m.collectionStack ∧
      (m.Update (Msg.key s)).1.globalSearchQuery = m.globalSearchQuery ∧
      (m.Update (Msg.key s)).1.loading = m.loading := by
  intro s hsmem
  simp only [helpInterceptedKeys, List.mem_cons, List.not_mem_nil, or_false] at hsmem
  rcases hsmem with rfl | rfl | rfl | rfl | rfl | rfl | rfl | rfl | rfl | rfl | rfl |
    rfl | rfl | rfl | rfl | rfl | rfl | rfl | rfl | rfl | rfl | rfl <;>
    simp [Model.Update, Model.handleKey, digitKeys, Model.handleHelpToggle,
          Model.handleSlash, Model.handleDigit, Model.handleUpK, Model.handleDownJ,
          Model.handleLeftH, Model.handleForward, Model.handleEsc, hhelp] <;>
    split_ifs <;> simp_all

/-- Witness for `C8_help_mode_intercepts`: the cursor-movement key `"down"`
inside the open help overlay leaves all navigation state intact at a
concrete state. -/
theorem C8_help_mode_intercepts_witness :
    (helpOnDatabasesModel.Update (Msg.key "down")).1.currentView
        = helpOnDatabasesModel.currentView ∧
      (helpOnDatabasesModel.Update (Msg.key "down")).1.cursor = helpOnDatabasesModel.cursor ∧
      (helpOnDatabasesModel.Update (Msg.key "down")).1.databases
        = helpOnDatabasesModel.databases ∧
      (helpOnDatabasesModel.Update (Msg.key "down")).1.schemas = helpOnDatabasesModel.schemas ∧
      (helpOnDatabasesModel.Update (Msg.key "down")).1.tables = helpOnDatabasesModel.tables ∧
      (helpOnDatabasesModel.Update (Msg.key "down")).1.fields = helpOnDatabasesModel.fields ∧
      (helpOnDatabasesModel.Update (Msg.key "down")).1.collections
        = helpOnDatabasesModel.collections ∧
      (helpOnDatabasesModel.Update (Msg.key "down")).1.collectionItems
        = helpOnDatabasesModel.collectionItems ∧
      (helpOnDatabasesModel.Update (Msg.key "down")).1.searchResults
        = helpOnDatabasesModel.searchResults ∧
      (helpOnDatabasesModel.Update (Msg.key "down")).1.selectedDatabase
        = helpOnDatabasesModel.selectedDatabase ∧
      (helpOnDatabasesModel.Update (Msg.key "down")).1.selectedSchema
        = helpOnDatabasesModel.selectedSchema ∧
      (helpOnDatabasesModel.Update (Msg.key "down")).1.selectedTable
        = helpOnDatabasesModel.selectedTable ∧
      (helpOnDatabasesModel.Update (Msg.key "down")).1.selectedCollection
        = helpOnDatabasesModel.selectedCollection ∧
      (helpOnDatabasesModel.Update (Msg.key "down")).1.collectionStack
        = helpOnDatabasesModel.collectionStack ∧
      (helpOnDatabasesModel.Update (Msg.key "down")).1.globalSearchQuery
        = helpOnDatabasesModel.globalSearchQuery ∧
      (helpOnDatabasesModel.Update (Msg.key "down")).1.loading = helpOnDatabasesModel.loading :=
  C8_help_mode_intercepts helpOnDatabasesModel rfl "down" (by decide)

/-! ## C7: quick-filter engine -/

/-- Every index produced by the quick-filter model is a valid index into the
candidate list. -/
theorem fuzzyFind_lt (q : String) (names : List String) :
    ∀ i ∈ fuzzyFind q names, i < names.length := by
  intro i hi
  unfold fuzzyFind at hi
  split at hi
  · simp at hi
  · simp only [List.mem_map] at hi
    obtain ⟨p, hp, rfl⟩ := hi
    have hmem : p ∈ names.enum := (List.mem_filter.mp hp).1
    have hget := List.mem_enum_iff_getElem?.mp hmem
    obtain ⟨h, -⟩ := List.getElem?_eq_some.mp hget
    exact h

/-- A search-mode state over the main menu with stale filter results. -/
def mainMenuSearchModel : Model :=
  { searchMode := true, searchQuery := "x", currentView := viewMainMenu,
    cursor := 3, filteredIndices := [1] }

/-- C7 counterexample: running `updateSearch` in search mode with a
non-empty query over the main menu recomputes `filteredIndices` (here from
`[1]` to `[]`) yet returns before the final cursor reset, leaving the cursor
at `3` — so "every recomputation of filteredIndices resets the cursor to 0"
fails. -/
theorem C7_quick_filter_counterexample :
    mainMenuSearchModel.updateSearch.filteredIndices ≠ mainMenuSearchModel.filteredIndices ∧
    mainMenuSearchModel.updateSearch.cursor = 3 := by
  decide

/-- C7 (amended): an empty query or leaving search mode always clears
`filteredIndices` (without touching the cursor); a recomputation through the
fuzzy matcher (search mode, non-empty query, any view but the main menu)
resets the cursor to 0; the produced indices are always valid indices into
the displayed list; and the item lists themselves are never modified. -/
theorem C7_quick_filter (m : Model) :
    ((m.searchMode = false ∨ m.searchQuery = "") →
      m.updateSearch.filteredIndices = [] ∧ m.updateSearch.cursor = m.cursor) ∧
    (m.searchMode = true → m.searchQuery ≠ "" → m.currentView ≠ viewMainMenu →
      m.updateSearch.cursor = 0) ∧
    (∀ i ∈ m.updateSearch.filteredIndices, i < m.displayedLength) ∧
    (m.updateSearch.databases = m.databases ∧ m.updateSearch.collections = m.collections ∧
      m.updateSearch.collectionItems = m.collectionItems ∧ m.updateSearch.schemas = m.schemas ∧
      m.updateSearch.tables = m.tables ∧ m.updateSearch.fields = m.fields) := by
  refine ⟨?_, ?_, ?_, ?_⟩
  · intro h
    rcases h with h | h <;> simp [Model.updateSearch, h]
  · intro h1 h2 h3
    rcases hv : m.currentView <;> simp_all [Model.updateSearch, hv]
  · rcases hsm : m.searchMode with _ | _
    · simp [Model.updateSearch, hsm]
    · by_cases hq : m.searchQuery = ""
      · simp [Model.updateSearch, hq]
      · rcases hv : m.currentView <;>
          simp [Model.updateSearch, hsm, hq, hv, Model.displayedLength] <;>
          intro i hi <;>
          simpa using fuzzyFind_lt _ _ i hi
  · rcases hsm : m.searchMode with _ | _
    · simp [Model.updateSearch, hsm]
    · by_cases hq : m.searchQuery = ""
      · simp [Model.updateSearch, hq]
      · rcases hv : m.currentView <;> simp [Model.updateSearch, hsm, hq, hv]

/-- A search-mode databases view with one matching and one non-matching
name. -/
def filterWitnessModel : Model :=
  { searchMode := true, searchQuery := "or", currentView := viewDatabases,
    databases := [{ id := 1, name := "orders" }, { id := 2, name := "users" }],
    cursor := 1 }

/-- Witness for `C7_quick_filter`: filtering a two-database list resets the
cursor, produces only valid indices and keeps the lists. -/
theorem C7_quick_filter_witness :
    filterWitnessModel.updateSearch.cursor = 0 ∧
    (∀ i ∈ filterWitnessModel.updateSearch.filteredIndices,
      i < filterWitnessModel.displayedLength) ∧
    filterWitnessModel.updateSearch.databases = filterWitnessModel.databases :=
  ⟨(C7_quick_filter filterWitnessModel).2.1 rfl (by decide) (by decide),
   (C7_quick_filter filterWitnessModel).2.2.1,
   (C7_quick_filter filterWitnessModel).2.2.2.1⟩

end MBX
